import Mathlib

/-!
Shallow embedding of the `rw_coordinator` package
(`master/pkg/rw-coordinator/server.go`): a websocket read/write lock
coordinator.  Resource identity (`*resourceObject` pointers in Go) is
modelled by allocation numbers; the per-connection handler is modelled as a
pure function from the request, the connection's behaviour and the registry
state to the trace of observable events, the final registry state and a
panic flag.  The `sync.RWMutex` inside every `resourceObject` is modelled
as a labelled transition system over the multiset of current holders,
following the documented enabling conditions of `RLock`/`Lock`/`RUnlock`/
`Unlock`.
-/

namespace RwCoordinator

/-- The two lock modes a connection can request: shared (`RLock`) or
exclusive (`Lock`). -/
inductive LockMode
  | read
  | write
deriving DecidableEq, Repr

/-- `resourceMap`: the registry owning the name-to-resource mapping.  The Go
`map[string]*resourceObject` is embedded as an association list from names to
allocation numbers (pointer identity), together with the next fresh
allocation number. -/
structure ResourceMap where
  resources : List (String × Nat)
  nextId : Nat
deriving DecidableEq, Repr

/-- The registry `RunServer` starts from: an empty map. -/
def emptyResourceMap : ResourceMap :=
  { resources := [], nextId := 0 }

/-- `resourceMap.getResource`: under the registry mutex, return the resource
registered for `resourceName` if present, otherwise allocate a fresh
`resourceObject`, insert it and return it. -/
def getResource (rMap : ResourceMap) (resourceName : String) : Nat × ResourceMap :=
  match rMap.resources.lookup resourceName with
  | some resource => (resource, rMap)
  | none =>
      (rMap.nextId,
       { resources := (resourceName, rMap.nextId) :: rMap.resources,
         nextId := rMap.nextId + 1 })

/-- Observable events of one run of `requestHandler`: log lines, lock
operations on the resolved resource, and `WriteMessage` calls. -/
inductive Event
  | logInfo (msg : String)
  | logError (msg : String)
  | acquire (mode : LockMode)
  | send (payload : String)
  | release (mode : LockMode)
deriving DecidableEq, Repr

/-- The behaviour of the upgraded websocket connection: whether the single
`WriteMessage` call succeeds, and the payloads delivered by successive
successful `ReadMessage` calls before the read that fails (closing the
connection). -/
structure ConnBehavior where
  sendOk : Bool
  readPayloads : List String
deriving DecidableEq, Repr

/-- The part of the incoming `*http.Request` the handler consults: the URL
path and `query["read_lock"]` (Go yields the `nil` slice, embedded as
`none`, when the key is absent). -/
structure Request where
  path : String
  readLockParam : Option (List String)
deriving DecidableEq, Repr

/-- The result of one run of `requestHandler`: the event trace, the registry
state after the run, and whether the handler goroutine panicked. -/
structure HandlerRun where
  events : List Event
  finalMap : ResourceMap
  panicked : Bool
deriving DecidableEq, Repr

/-- `resourceMap.requestHandler`: upgrade the connection (on failure log and
return); read `query["read_lock"]`, logging an error when absent; index
element 0 of that slice (a runtime panic when the slice is `nil`); resolve
the resource through `getResource`; acquire the lock in the selected mode
with the matching unlock deferred; send the grant payload, logging on send
failure; then loop reading (and discarding) client messages until a read
fails, at which point the handler returns and the deferred unlock runs. -/
def requestHandler (upgradeOk : Bool) (r : Request) (conn : ConnBehavior)
    (rMap : ResourceMap) : HandlerRun :=
  if upgradeOk = false then
    { events := [Event.logInfo "upgrade error"], finalMap := rMap, panicked := false }
  else
    let resourceName := r.path
    let readLockString := r.readLockParam.getD []
    let missingLog : List Event :=
      match r.readLockParam with
      | some _ => []
      | none => [Event.logError "Received request without specifying read_lock"]
    match readLockString with
    | [] =>
        { events := missingLog, finalMap := rMap, panicked := true }
    | v :: _ =>
        let readLock := v == "True"
        let resolved := getResource rMap resourceName
        let mode := if readLock then LockMode.read else LockMode.write
        let response := if readLock then "read_lock_granted" else "write_lock_granted"
        let sendEvents : List Event :=
          if conn.sendOk then [Event.send response]
          else [Event.send response,
                Event.logInfo "rw-coordinator server failed to respond"]
        { events := missingLog ++ [Event.acquire mode] ++ sendEvents
            ++ [Event.logInfo "Connection closed", Event.release mode],
          finalMap := resolved.2,
          panicked := false }

/-- The lock operations (acquires and releases) of a trace, in order. -/
def lockEvents (es : List Event) : List Event :=
  es.filter fun e =>
    match e with
    | Event.acquire _ => true
    | Event.release _ => true
    | _ => false

/-- The payloads of the `WriteMessage` calls of a trace, in order. -/
def sentPayloads (es : List Event) : List String :=
  es.filterMap fun e =>
    match e with
    | Event.send payload => some payload
    | _ => none

/-- The state of one `resourceObject.mux` (`sync.RWMutex`): the list of
current holders, each a connection identifier tagged with the mode it holds.
-/
structure MuxState where
  holders : List (Nat × LockMode)
deriving DecidableEq, Repr

/-- One step of a `resourceObject.mux`: `RLock` returns only while no writer
holds, `Lock` returns only while nobody holds, and each holder may run the
unlock matching its mode.  This is the documented enabling discipline of
`sync.RWMutex`, the primitive `resourceObject` wraps. -/
inductive MuxStep : MuxState → MuxState → Prop
  | rlock (c : Nat) (s : MuxState)
      (hg : ∀ p ∈ s.holders, p.2 ≠ LockMode.write) :
      MuxStep s ⟨(c, LockMode.read) :: s.holders⟩
  | lock (c : Nat) (s : MuxState) (hg : s.holders = []) :
      MuxStep s ⟨[(c, LockMode.write)]⟩
  | runlock (c : Nat) (s : MuxState) (hm : (c, LockMode.read) ∈ s.holders) :
      MuxStep s ⟨s.holders.erase (c, LockMode.read)⟩
  | unlock (c : Nat) (s : MuxState) (hm : (c, LockMode.write) ∈ s.holders) :
      MuxStep s ⟨s.holders.erase (c, LockMode.write)⟩

/-- States of a `resourceObject.mux` reachable from the unheld mutex a fresh
`resourceObject{}` starts with. -/
def MuxReachable (s : MuxState) : Prop :=
  Relation.ReflTransGen MuxStep ⟨[]⟩ s

/-- Writer exclusion: whenever a connection holds the write lock, it is the
only holder of any mode. -/
def writerExclusive (s : MuxState) : Prop :=
  ∀ c : Nat, (c, LockMode.write) ∈ s.holders → s.holders = [(c, LockMode.write)]

/-- The mutex state in which connections `0, …, n-1` all hold the read
lock. -/
def readersState : Nat → List (Nat × LockMode)
  | 0 => []
  | n + 1 => (n, LockMode.read) :: readersState n

/-- The `http.ServeMux` of `RunServer` registers two handlers. -/
inductive Route
  | lockRoute
  | shutdownRoute
deriving DecidableEq, Repr

/-- Routing of `RunServer`'s mux, which registers the pattern `/` (matching
every path) and the pattern `/shutdown` (no trailing slash: matching exactly
that path); `http.ServeMux` picks the longest matching pattern. -/
def muxRoute (path : String) : Route :=
  if path == "/shutdown" then Route.shutdownRoute else Route.lockRoute

/-- Listener state of the running `http.Server`: whether the accept loop
still accepts new connections, and which handlers are in flight (identified
by connection number, with the lock each currently holds, if any). -/
structure ServerState where
  accepting : Bool
  inFlight : List (Nat × Option (String × LockMode))
deriving DecidableEq, Repr

/-- `http.Server.Shutdown` per its documented contract: the listener stops
accepting new connections; active connections are not interrupted. -/
def serverShutdown (st : ServerState) : ServerState :=
  { st with accepting := false }

/-- The result of running the `/shutdown` handler closure. -/
structure ShutdownRun where
  state : ServerState
  spawnedAsyncShutdown : Bool
  upgraded : Bool
  logs : List String
  fatal : Bool
deriving DecidableEq, Repr

/-- The anonymous handler `RunServer` registers on `/shutdown`: it spawns a
goroutine that calls `server.Shutdown` and logs the error, if any; it never
calls `upgrader.Upgrade`, never touches the registry or any lock, and
returns normally whether or not the shutdown failed. -/
def shutdownHandler (shutdownErr : Option String) (st : ServerState) : ShutdownRun :=
  { state := serverShutdown st,
    spawnedAsyncShutdown := true,
    upgraded := false,
    logs :=
      match shutdownErr with
      | some e => ["rw-coordinator server shutdown failed: " ++ e]
      | none => [],
    fatal := false }

/-- Dispatch of one incoming request through `RunServer`'s mux: a path other
than `/shutdown` goes to `requestHandler`, which may touch the registry;
the path `/shutdown` goes to the shutdown closure, which touches neither
the registry nor any lock. -/
def serveConnection (r : Request) (upgradeOk : Bool) (conn : ConnBehavior)
    (shutdownErr : Option String) (rMap : ResourceMap) (st : ServerState) :
    ResourceMap × ServerState × List Event :=
  match muxRoute r.path with
  | Route.lockRoute =>
      let run := requestHandler upgradeOk r conn rMap
      (run.finalMap, st, run.events)
  | Route.shutdownRoute =>
      (rMap, (shutdownHandler shutdownErr st).state, [])

/-! ## Registry theorems -/

/-- C4: `getResource` always succeeds for every name: if the name is bound it
returns the existing resource and leaves the registry unchanged; if it is
absent it allocates a fresh resource, binds the name to it and returns it;
consequently two calls with the same name return the identical resource. -/
theorem getResource_get_or_create (rMap : ResourceMap) (name : String) :
    (∀ r, rMap.resources.lookup name = some r → getResource rMap name = (r, rMap)) ∧
    (rMap.resources.lookup name = none →
      (getResource rMap name).2.resources.lookup name = some (getResource rMap name).1 ∧
      (getResource rMap name).1 = rMap.nextId ∧
      (getResource rMap name).2.nextId = rMap.nextId + 1) ∧
    (getResource (getResource rMap name).2 name).1 = (getResource rMap name).1 := by
  refine ⟨fun r h => by simp [getResource, h], fun h => by simp [getResource, h, List.lookup], ?_⟩
  cases h : rMap.resources.lookup name with
  | some r => simp [getResource, h]
  | none => simp [getResource, h, List.lookup]

/-- Witness for C4 at concrete registries: the empty string and a bound name
both behave as stated. -/
theorem getResource_get_or_create_witness :
    getResource { resources := [("", 7)], nextId := 8 } ""
        = (7, { resources := [("", 7)], nextId := 8 }) ∧
    (getResource emptyResourceMap "").2.resources.lookup ""
        = some (getResource emptyResourceMap "").1 :=
  ⟨(getResource_get_or_create { resources := [("", 7)], nextId := 8 } "").1 7 (by rfl),
   ((getResource_get_or_create emptyResourceMap "").2.1 (by rfl)).1⟩

/-- C8: every registry operation preserves existing bindings: a name bound to
a resource stays bound to that same resource across any `getResource` call,
and no deletion operation exists on the registry. -/
theorem getResource_preserves_bindings (rMap : ResourceMap) (name s : String) (r : Nat)
    (h : rMap.resources.lookup s = some r) :
    (getResource rMap name).2.resources.lookup s = some r := by
  unfold getResource
  cases hn : rMap.resources.lookup name with
  | some t => simpa using h
  | none =>
      simp only [List.lookup]
      by_cases he : name = s
      · subst he; rw [h] at hn; cases hn
      · have hne : (s == name) = false :=
          beq_eq_false_iff_ne.mpr fun hh => he hh.symm
        simp [hne, h]

/-- Witness for C8: a concrete pre-existing binding survives a `getResource`
on a different name. -/
theorem getResource_preserves_bindings_witness :
    (getResource { resources := [("a", 0)], nextId := 1 } "b").2.resources.lookup "a"
      = some 0 :=
  getResource_preserves_bindings { resources := [("a", 0)], nextId := 1 } "b" "a" 0 (by rfl)

/-! ## Handler theorems -/

/-- C1: on a request with no `read_lock` query parameter the handler logs an
error but then indexes element 0 of the `nil` slice and panics: it never
resolves the resource, never acquires any lock and never sends
`write_lock_granted`, contrary to the documented exclusive-mode default. -/
theorem missing_read_lock_panics :
    requestHandler true { path := "/resource1", readLockParam := none }
        { sendOk := true, readPayloads := [] } emptyResourceMap
      = { events := [Event.logError "Received request without specifying read_lock"],
          finalMap := emptyResourceMap,
          panicked := true } := rfl

/-- C3: whenever the handler acquires a lock (parameter present, upgrade
succeeded), the run's lock trace is exactly one acquire followed by one
release of the same mode — for every connection behaviour, in particular
whether or not sending the grant message succeeds. -/
theorem handler_always_releases (path v : String) (vs : List String)
    (conn : ConnBehavior) (rMap : ResourceMap) :
    lockEvents (requestHandler true { path := path, readLockParam := some (v :: vs) }
        conn rMap).events
      = [Event.acquire (if v = "True" then LockMode.read else LockMode.write),
         Event.release (if v = "True" then LockMode.read else LockMode.write)] := by
  obtain ⟨sendOk, readPayloads⟩ := conn
  by_cases hv : v = "True" <;> cases sendOk <;>
    simp [requestHandler, lockEvents, hv]

/-- C5: with the `read_lock` parameter present, shared mode is selected
exactly when its first value is the string `True` (case-sensitive), any
other value selecting exclusive mode, and the grant payload sent matches the
selected mode. -/
theorem read_lock_mode_selection (path v : String) (vs : List String)
    (conn : ConnBehavior) (rMap : ResourceMap) :
    (requestHandler true { path := path, readLockParam := some (v :: vs) }
        conn rMap).events.filter
        (fun e => match e with | Event.acquire _ => true | _ => false)
      = [Event.acquire (if v = "True" then LockMode.read else LockMode.write)] ∧
    sentPayloads (requestHandler true { path := path, readLockParam := some (v :: vs) }
        conn rMap).events
      = [if v = "True" then "read_lock_granted" else "write_lock_granted"] := by
  obtain ⟨sendOk, readPayloads⟩ := conn
  by_cases hv : v = "True" <;> cases sendOk <;>
    simp [requestHandler, sentPayloads, hv]

/-- C6: on a granted connection the handler calls `WriteMessage` exactly
once, with the grant payload, immediately after the acquire; and the run is
literally independent of the payloads the client sends during the hold. -/
theorem single_grant_and_client_data_ignored (path v : String) (vs : List String)
    (sendOk : Bool) (ps qs : List String) (rMap : ResourceMap) :
    sentPayloads (requestHandler true { path := path, readLockParam := some (v :: vs) }
        { sendOk := sendOk, readPayloads := ps } rMap).events
      = [if v = "True" then "read_lock_granted" else "write_lock_granted"] ∧
    (∃ post : List Event,
      (requestHandler true { path := path, readLockParam := some (v :: vs) }
          { sendOk := sendOk, readPayloads := ps } rMap).events
        = Event.acquire (if v = "True" then LockMode.read else LockMode.write)
            :: Event.send (if v = "True" then "read_lock_granted" else "write_lock_granted")
            :: post ∧
      ∀ e ∈ post, sentPayloads [e] = []) ∧
    requestHandler true { path := path, readLockParam := some (v :: vs) }
        { sendOk := sendOk, readPayloads := ps } rMap
      = requestHandler true { path := path, readLockParam := some (v :: vs) }
        { sendOk := sendOk, readPayloads := qs } rMap := by
  refine ⟨?_, ?_, rfl⟩
  · by_cases hv : v = "True" <;> cases sendOk <;>
      simp [requestHandler, sentPayloads, hv]
  · by_cases hv : v = "True" <;> cases sendOk <;>
      simp [requestHandler, sentPayloads, hv]

/-- C7: when the websocket upgrade fails the handler logs and returns with
no lock-related effect: the registry is unchanged, no lock operation
happens, no message is sent, and the handler does not panic. -/
theorem upgrade_failure_touches_nothing (r : Request) (conn : ConnBehavior)
    (rMap : ResourceMap) :
    (requestHandler false r conn rMap).finalMap = rMap ∧
    lockEvents (requestHandler false r conn rMap).events = [] ∧
    sentPayloads (requestHandler false r conn rMap).events = [] ∧
    (requestHandler false r conn rMap).panicked = false ∧
    (requestHandler false r conn rMap).events = [Event.logInfo "upgrade error"] := by
  refine ⟨rfl, rfl, rfl, rfl, rfl⟩

/-! ## Mutex theorems -/

/-- In a pure-readers state no holder holds the write lock. -/
theorem readersState_no_write (n : Nat) :
    ∀ p ∈ readersState n, p.2 ≠ LockMode.write := by
  induction n with
  | zero => intro p hp; cases hp
  | succ k ih =>
      intro p hp
      rcases List.mem_cons.mp hp with h | h
      · subst h; simp
      · exact ih p h

/-- One mutex step preserves writer exclusivity. -/
theorem writerExclusive_step {s t : MuxState} (hs : writerExclusive s)
    (h : MuxStep s t) : writerExclusive t := by
  cases h with
  | rlock c s hg =>
      intro c' hc'
      rcases List.mem_cons.mp hc' with h1 | h1
      · simp at h1
      · have := hg _ h1
        simp at this
  | lock c s hg =>
      intro c' hc'
      simp at hc'
      simp [hc']
  | runlock c s hm =>
      intro c' hc'
      have hmem : (c', LockMode.write) ∈ s.holders := List.mem_of_mem_erase hc'
      have hx := hs c' hmem
      rw [hx] at hm
      simp at hm
  | unlock c s hm =>
      intro c' hc'
      have hmem : (c', LockMode.write) ∈ s.holders := List.mem_of_mem_erase hc'
      have hx := hs c' hmem
      rw [hx] at hm
      simp at hm
      subst hm
      rw [hx, List.erase_cons_head] at hc'
      cases hc'

/-- C2: in every state of a resource's mutex reachable from the fresh
(unheld) mutex, at most one connection holds the write lock and while it
does no read holder is active; and for every `n`, the state with `n`
concurrent read holders is reachable. -/
theorem mux_mutual_exclusion :
    (∀ s : MuxState, MuxReachable s → writerExclusive s) ∧
    (∀ n : Nat, MuxReachable ⟨readersState n⟩) := by
  constructor
  · intro s h
    induction h with
    | refl => intro c hc; cases hc
    | tail _ hbc ih => exact writerExclusive_step ih hbc
  · intro n
    induction n with
    | zero => exact Relation.ReflTransGen.refl
    | succ k ih =>
        exact Relation.ReflTransGen.tail ih
          (MuxStep.rlock k ⟨readersState k⟩ (readersState_no_write k))

/-- Witness for C2: the concrete two-reader state is reachable and satisfies
writer exclusivity. -/
theorem mux_mutual_exclusion_witness :
    MuxReachable ⟨readersState 2⟩ ∧ writerExclusive ⟨readersState 2⟩ :=
  ⟨mux_mutual_exclusion.2 2,
   mux_mutual_exclusion.1 ⟨readersState 2⟩ (mux_mutual_exclusion.2 2)⟩

/-! ## Server theorems -/

/-- C9: the `/shutdown` handler spawns an asynchronous graceful shutdown:
the listener stops accepting, in-flight handlers (and the locks they hold)
are untouched, a shutdown failure is only logged (never fatal), and no
websocket upgrade is performed on the administrative path, so the client's
handshake fails. -/
theorem shutdown_endpoint_graceful (shutdownErr : Option String) (st : ServerState) :
    muxRoute "/shutdown" = Route.shutdownRoute ∧
    (shutdownHandler shutdownErr st).state.accepting = false ∧
    (shutdownHandler shutdownErr st).state.inFlight = st.inFlight ∧
    (shutdownHandler shutdownErr st).spawnedAsyncShutdown = true ∧
    (shutdownHandler shutdownErr st).upgraded = false ∧
    (shutdownHandler shutdownErr st).fatal = false ∧
    (shutdownErr = none → (shutdownHandler shutdownErr st).logs = []) ∧
    (∀ e, shutdownErr = some e →
      (shutdownHandler shutdownErr st).logs
        = ["rw-coordinator server shutdown failed: " ++ e]) := by
  refine ⟨rfl, rfl, rfl, rfl, rfl, rfl, ?_, ?_⟩
  · intro h; subst h; rfl
  · intro e h; subst h; rfl

/-- Witness for C9: concrete runs with and without a shutdown error. -/
theorem shutdown_endpoint_graceful_witness :
    (shutdownHandler none { accepting := true, inFlight := [] }).logs = [] ∧
    (shutdownHandler (some "boom") { accepting := true, inFlight := [] }).logs
      = ["rw-coordinator server shutdown failed: boom"] :=
  ⟨(shutdown_endpoint_graceful none { accepting := true, inFlight := [] }).2.2.2.2.2.2.1 rfl,
   (shutdown_endpoint_graceful (some "boom")
      { accepting := true, inFlight := [] }).2.2.2.2.2.2.2 "boom" rfl⟩

/-- C10: a request whose path is exactly `/shutdown` is routed to the
shutdown closure, never to `requestHandler`: the registry is unchanged (no
resource named `/shutdown` is created) and no lock or send event occurs. -/
theorem shutdown_path_never_lock_handled (q : Option (List String))
    (upgradeOk : Bool) (conn : ConnBehavior) (shutdownErr : Option String)
    (rMap : ResourceMap) (st : ServerState) :
    muxRoute "/shutdown" = Route.shutdownRoute ∧
    (serveConnection { path := "/shutdown", readLockParam := q }
        upgradeOk conn shutdownErr rMap st).1 = rMap ∧
    (serveConnection { path := "/shutdown", readLockParam := q }
        upgradeOk conn shutdownErr rMap st).2.2 = [] := by
  exact ⟨rfl, rfl, rfl⟩

end RwCoordinator
